import Mathlib

/-!
Verification development for the identity and access subsystem of the
vyapar-ai backend (FastAPI service).  The definitions below are a shallow
embedding of `app/services/auth_service.py`,
`app/middleware/rate_limiting.py` and the route handlers in
`app/api/v1/endpoints/auth.py`:

* keyed database tables (Supabase) and the Redis key-value cache are
  modelled as association lists with explicit lookup / insert-or-replace /
  erase operations;
* wall-clock time is a natural number of seconds carried in the state;
* the bcrypt hash of an OTP code is modelled by an abstract hash function
  parameter `hashFn`, with `pwd_context.verify c h` becoming `hashFn c = h`;
* JWTs are records of their claims (`sub`, `typ`, `iat`, `exp`) together
  with a flag recording whether they carry a valid signature under the
  server secret; `jose.jwt.decode` fails exactly on a bad signature or an
  elapsed `exp` claim;
* Python exceptions raised by storage clients are modelled by explicit
  failure flags; the `try/except` blocks of the source become total
  functions returning the caught default, so "never propagates an
  exception" is visible in the return type.
-/

namespace VyaparAI

/-! ### Association-list maps (tables keyed by id, Redis keys) -/

def alookup {α β : Type} [DecidableEq α] : List (α × β) → α → Option β
  | [], _ => none
  | (k, v) :: rest, k' => if k' = k then some v else alookup rest k'

def aupdate {α β : Type} [DecidableEq α] : List (α × β) → α → β → List (α × β)
  | [], k, v => [(k, v)]
  | (k0, v0) :: rest, k, v =>
      if k = k0 then (k, v) :: rest else (k0, v0) :: aupdate rest k v

def aerase {α β : Type} [DecidableEq α] : List (α × β) → α → List (α × β)
  | [], _ => []
  | (k0, v0) :: rest, k =>
      if k = k0 then aerase rest k else (k0, v0) :: aerase rest k

theorem alookup_aupdate_self {α β : Type} [DecidableEq α]
    (l : List (α × β)) (k : α) (v : β) : alookup (aupdate l k v) k = some v := by
  induction l with
  | nil => simp [aupdate, alookup]
  | cons hd tl ih =>
      obtain ⟨k0, v0⟩ := hd
      by_cases h : k = k0
      · simp [aupdate, h, alookup]
      · simp [aupdate, h, alookup, ih]

theorem alookup_aupdate_ne {α β : Type} [DecidableEq α]
    (l : List (α × β)) (k k' : α) (v : β) (hne : k' ≠ k) :
    alookup (aupdate l k v) k' = alookup l k' := by
  induction l with
  | nil => simp [aupdate, alookup, hne]
  | cons hd tl ih =>
      obtain ⟨k0, v0⟩ := hd
      by_cases h : k = k0
      · subst h
        simp [aupdate, alookup, hne]
      · by_cases h' : k' = k0
        · simp [aupdate, h, alookup, h']
        · simp [aupdate, h, alookup, h', ih]

theorem alookup_aerase_self {α β : Type} [DecidableEq α]
    (l : List (α × β)) (k : α) : alookup (aerase l k) k = none := by
  induction l with
  | nil => simp [aerase, alookup]
  | cons hd tl ih =>
      obtain ⟨k0, v0⟩ := hd
      by_cases h : k = k0
      · subst h
        simp [aerase, ih]
      · simp [aerase, h, alookup, ih, Ne.symm h]

theorem alookup_mem {α β : Type} [DecidableEq α]
    (l : List (α × β)) (k : α) (v : β) (h : alookup l k = some v) : (k, v) ∈ l := by
  induction l with
  | nil => simp [alookup] at h
  | cons hd tl ih =>
      obtain ⟨k0, v0⟩ := hd
      by_cases hk : k = k0
      · subst hk
        simp [alookup] at h
        simp [h]
      · simp [alookup, hk] at h
        exact List.mem_cons_of_mem _ (ih h)

/-! ### Identifier validation (`AuthService._is_valid_phone`)

Mirrors the regex `^(\+91|91)?[6-9]\d{9}$` applied to the input with
spaces and dashes removed, alternation tried left to right with
backtracking as `re.match` does. -/

def stripPhone (s : String) : List Char :=
  s.data.filter (fun c => !(c == ' ' || c == '-'))

def isPhoneCore : List Char → Bool
  | [] => false
  | c :: rest =>
      decide ('6' ≤ c) && decide (c ≤ '9') && (rest.length == 9) &&
        rest.all (fun d => d.isDigit)

def isValidPhone (s : String) : Bool :=
  let cs := stripPhone s
  (match cs with
   | '+' :: '9' :: '1' :: rest => isPhoneCore rest
   | _ => false) ||
  (match cs with
   | '9' :: '1' :: rest => isPhoneCore rest
   | _ => false) ||
  isPhoneCore cs

/-! ### JWT model (`AuthService._generate_jwt_tokens`, `jose.jwt`) -/

inductive Typ : Type
  | access
  | refresh
deriving DecidableEq, Repr

structure Jwt where
  sub : Nat
  typ : Typ
  iat : Nat
  exp : Nat
  sig : Bool
deriving DecidableEq, Repr

/-- `jose.jwt.decode` succeeds iff the signature verifies under the server
secret and the `exp` claim has not elapsed (jose raises `ExpiredSignatureError`,
a `JWTError`, when `exp < now`). -/
def jwtDecodeOk (tok : Jwt) (now : Nat) : Bool :=
  tok.sig && !(decide (now > tok.exp))

/-! ### Durable-store rows and cache entries -/

structure OtpRecord where
  identifier : String
  otpHash : String
  attempts : Nat
  verified : Bool
  expiresAt : Nat
deriving DecidableEq, Repr

structure Vendor where
  id : Nat
  name : String
  marketLocation : String
  preferredLanguage : String
  status : String
  phoneNumber : String
  email : Option String
  lastActive : Nat
deriving DecidableEq, Repr

structure SessionRow where
  vendorId : Nat
  sessionToken : Jwt
  refreshToken : Jwt
  expiresAt : Nat
  lastUsed : Option Nat
deriving DecidableEq, Repr

/-- Value cached under `vendor_session:{access_token}`: the vendor id and the
session row's `expires_at`; `ttlExpiresAt` is the instant at which the Redis
entry itself disappears (24 h after the `setex`). -/
structure SessCacheEntry where
  vendorId : Nat
  expiresAt : Nat
  ttlExpiresAt : Nat
deriving DecidableEq, Repr

/-- State of the durable store and the shared cache as seen by
`AuthService`.  `tokenMap` is the Redis `otp_token:{token}` mapping
(value: OTP record id, plus the instant its TTL elapses). -/
structure AuthState where
  tokenMap : List (String × (Nat × Nat))
  otpRecords : List (Nat × OtpRecord)
  vendors : List (Nat × Vendor)
  nextVendorId : Nat
  vendorSessions : List (Nat × SessionRow)
  nextSessionId : Nat
  sessionCache : List (Jwt × SessCacheEntry)
  now : Nat
deriving DecidableEq, Repr

/-- Redis `GET otp_token:{token}` honouring the entry's TTL. -/
def redisGetToken (st : AuthState) (token : String) : Option Nat :=
  match alookup st.tokenMap token with
  | none => none
  | some (oid, ttlExp) => if st.now < ttlExp then some oid else none

def findVendorByPhone (l : List (Nat × Vendor)) (ident : String) : Option Vendor :=
  (l.find? (fun p => decide (p.2.phoneNumber = ident))).map (fun p => p.2)

def findVendorByEmail (l : List (Nat × Vendor)) (ident : String) : Option Vendor :=
  (l.find? (fun p => decide (p.2.email = some ident))).map (fun p => p.2)

/-- `AuthService._get_or_create_vendor`.  `rand` models the value returned
by `secrets.randbelow(9000000000)` when an email-only vendor needs a
placeholder phone number. -/
def getOrCreateVendor (st : AuthState) (ident : String) (rand : Nat) :
    Vendor × AuthState :=
  match (if isValidPhone ident then findVendorByPhone st.vendors ident
         else findVendorByEmail st.vendors ident) with
  | some v =>
      (v, { st with vendors := aupdate st.vendors v.id { v with lastActive := st.now } })
  | none =>
      let base : Vendor :=
        { id := st.nextVendorId
          name := ""
          marketLocation := ""
          preferredLanguage := "hi"
          status := "active"
          phoneNumber := ""
          email := none
          lastActive := st.now }
      let v : Vendor :=
        if isValidPhone ident then { base with phoneNumber := ident }
        else { base with email := some ident,
                         phoneNumber := "+91" ++ Nat.repr (rand + 1000000000) }
      (v, { st with vendors := aupdate st.vendors v.id v,
                    nextVendorId := st.nextVendorId + 1 })

/-- `AuthService._create_vendor_session`: insert the session row (expiry
30 days out) and mirror it into the cache under the access token with a
24-hour TTL; the cached `expires_at` is the session row's expiry. -/
def createVendorSession (st : AuthState) (vid : Nat) (access refresh : Jwt) :
    AuthState :=
  let sessExp := st.now + 30 * 86400
  { st with
      vendorSessions :=
        (aupdate st.vendorSessions st.nextSessionId
          { vendorId := vid, sessionToken := access, refreshToken := refresh,
            expiresAt := sessExp, lastUsed := none })
      nextSessionId := st.nextSessionId + 1
      sessionCache :=
        (aupdate st.sessionCache access
          { vendorId := vid, expiresAt := sessExp, ttlExpiresAt := st.now + 24 * 3600 }) }

/-- The distinct failure messages raised by `AuthService.verify_otp`. -/
inductive VerifyErr : Type
  | tokenInvalid
  | recordNotFound
  | expired
  | alreadyUsed
  | attemptsExhausted
  | invalidCode (remaining : Nat)
deriving DecidableEq, Repr

structure AuthResponse where
  accessToken : Jwt
  refreshToken : Jwt
  vendorId : Nat
deriving DecidableEq, Repr

/-- `AuthService.verify_otp` (lines 273-341 of `auth_service.py`), including
the state mutations performed before a raise: a hash mismatch persists the
attempts increment, and a success persists the record update, the vendor
resolution, the session insert and the deletion of the token mapping. -/
def verifyOtp (hashFn : String → String) (st : AuthState)
    (token code : String) (rand : Nat) :
    (VerifyErr ⊕ AuthResponse) × AuthState :=
  match redisGetToken st token with
  | none => (Sum.inl VerifyErr.tokenInvalid, st)
  | some oid =>
    match alookup st.otpRecords oid with
    | none => (Sum.inl VerifyErr.recordNotFound, st)
    | some r0 =>
      if st.now > r0.expiresAt then (Sum.inl VerifyErr.expired, st)
      else if r0.verified then (Sum.inl VerifyErr.alreadyUsed, st)
      else if r0.attempts ≥ 3 then (Sum.inl VerifyErr.attemptsExhausted, st)
      else if hashFn code ≠ r0.otpHash then
        (Sum.inl (VerifyErr.invalidCode (3 - (r0.attempts + 1))),
         { st with otpRecords :=
             aupdate st.otpRecords oid { r0 with attempts := r0.attempts + 1 } })
      else
        let st1 : AuthState :=
          { st with otpRecords :=
              (aupdate st.otpRecords oid
                { r0 with verified := true, attempts := r0.attempts + 1 }) }
        let vres := getOrCreateVendor st1 r0.identifier rand
        let access : Jwt :=
          { sub := vres.1.id, typ := Typ.access, iat := st.now,
            exp := st.now + 3600, sig := true }
        let refresh : Jwt :=
          { sub := vres.1.id, typ := Typ.refresh, iat := st.now,
            exp := st.now + 30 * 86400, sig := true }
        let st3 := createVendorSession vres.2 vres.1.id access refresh
        (Sum.inr { accessToken := access, refreshToken := refresh, vendorId := vres.1.id },
         { st3 with tokenMap := aerase st3.tokenMap token })

/-! ### Session validation (`AuthService.validate_session`)

The two Booleans `cf` and `df` inject storage failures: when `cf` is true
every Redis call raises, when `df` is true every Supabase call raises.  The
source wraps the whole body in `try/except` with both `JWTError` and the
generic handler returning `None`, so the embedding is a total function into
`Option`: no error value ever escapes. -/

structure SessInfo where
  vendorId : Nat
  expiresAt : Nat
deriving DecidableEq, Repr

/-- Redis `GET vendor_session:{token}` honouring the entry's 24 h TTL. -/
def cacheGetSess (st : AuthState) (tok : Jwt) : Option SessCacheEntry :=
  match alookup st.sessionCache tok with
  | none => none
  | some cs => if st.now < cs.ttlExpiresAt then some cs else none

/-- `SELECT * FROM vendor_sessions WHERE session_token = tok` (first row). -/
def findSessionByToken (st : AuthState) (tok : Jwt) : Option (Nat × SessionRow) :=
  st.vendorSessions.find? (fun p => decide (p.2.sessionToken = tok))

/-- The part of `validate_session` after the cache check: JWT verification,
`typ` check, database lookup, lazy cleanup of an expired row, `last_used`
refresh. -/
def validateSessionTail (df : Bool) (st : AuthState) (tok : Jwt) :
    Option SessInfo × AuthState :=
  if jwtDecodeOk tok st.now = false then (none, st)
  else if tok.typ ≠ Typ.access then (none, st)
  else if df then (none, st)
  else
    match findSessionByToken st tok with
    | none => (none, st)
    | some (rid, row) =>
      if st.now > row.expiresAt then
        (none, { st with vendorSessions := aerase st.vendorSessions rid,
                         sessionCache := aerase st.sessionCache tok })
      else
        (some { vendorId := tok.sub, expiresAt := row.expiresAt },
         { st with vendorSessions :=
             (aupdate st.vendorSessions rid { row with lastUsed := some st.now }) })

/-- `AuthService.validate_session` (lines 461-510): read-through cache check
first, signature/`typ`/database path on miss or stale hit. -/
def validateSession (cf df : Bool) (st : AuthState) (tok : Jwt) :
    Option SessInfo × AuthState :=
  if cf then (none, st)
  else
    match cacheGetSess st tok with
    | some cs =>
        if st.now ≤ cs.expiresAt then
          (some { vendorId := cs.vendorId, expiresAt := cs.expiresAt }, st)
        else validateSessionTail df st tok
    | none => validateSessionTail df st tok

/-! ### Rate-limit middleware (`RateLimitMiddleware`)

`cpm` and `cph` are the constructor arguments `calls_per_minute` and
`calls_per_hour` (the deployed defaults are 60 and 1000). -/

/-- Per-endpoint limits: the `sensitive_endpoints` table, defaults otherwise. -/
def limitsFor (cpm cph : Nat) (path : String) : Nat × Nat :=
  if path = "/api/v1/auth/login" then (5, 20)
  else if path = "/api/v1/auth/verify-otp" then (10, 50)
  else if path = "/api/v1/auth/refresh" then (20, 200)
  else (cpm, cph)

/-- Middleware + brute-force state: fixed-bucket window counters keyed by
(identifier, bucket index), failure counters and lockouts keyed by
(endpoint, identifier).  Stored pairs carry the value and the TTL it was
written with.  `failing` injects a Redis outage. -/
structure RlState where
  minuteCounts : List ((String × Nat) × Nat)
  hourCounts : List ((String × Nat) × Nat)
  failed : List ((String × String) × (Nat × ℚ))
  lockouts : List ((String × String) × (ℚ × ℚ))
  now : Nat
  failing : Bool
deriving DecidableEq, Repr

def getCount (l : List ((String × Nat) × Nat)) (k : String × Nat) : Nat :=
  (alookup l k).getD 0

inductive RlWindow : Type
  | minute
  | hour
deriving DecidableEq, Repr

inductive RlDecision : Type
  | reject (limit reset : Nat) (window : RlWindow)
  | allow (info : Option (Nat × Nat × Nat × Nat))
deriving DecidableEq, Repr

/-- `RateLimitMiddleware._check_rate_limit`: pre-increment counts against the
per-endpoint limits, minute window first, ties rejecting; on a Redis error
the decision is to allow with no header info (fail-open). -/
def checkRateLimit (cpm cph : Nat) (st : RlState) (ident path : String) : RlDecision :=
  if st.failing then RlDecision.allow none
  else
    let ml := (limitsFor cpm cph path).1
    let hl := (limitsFor cpm cph path).2
    let mc := getCount st.minuteCounts (ident, st.now / 60)
    let hc := getCount st.hourCounts (ident, st.now / 3600)
    if mc ≥ ml then RlDecision.reject ml ((st.now / 60 + 1) * 60) RlWindow.minute
    else if hc ≥ hl then RlDecision.reject hl ((st.now / 3600 + 1) * 3600) RlWindow.hour
    else RlDecision.allow (some (ml, ml - mc - 1, hl, hl - hc - 1))

/-- `RateLimitMiddleware._increment_counters`: one `INCR` on each window key;
swallows Redis errors. -/
def incrementCounters (st : RlState) (ident : String) : RlState :=
  if st.failing then st
  else
    { st with
        minuteCounts :=
          (aupdate st.minuteCounts (ident, st.now / 60)
            (getCount st.minuteCounts (ident, st.now / 60) + 1))
        hourCounts :=
          (aupdate st.hourCounts (ident, st.now / 3600)
            (getCount st.hourCounts (ident, st.now / 3600) + 1)) }

/-- Paths exempt from rate limiting in `dispatch`. -/
def skipPaths : List String := ["/", "/health", "/docs", "/redoc", "/openapi.json"]

inductive MwResult : Type
  | passthrough
  | rejected (limit reset : Nat) (window : RlWindow)
  | processed (info : Option (Nat × Nat × Nat × Nat))
deriving DecidableEq, Repr

/-- `RateLimitMiddleware.dispatch`: skip list, then decision, then — only on
admission — the counter increments, then the downstream handler. -/
def dispatch (cpm cph : Nat) (st : RlState) (ident path : String) :
    MwResult × RlState :=
  if path ∈ skipPaths then (MwResult.passthrough, st)
  else
    match checkRateLimit cpm cph st ident path with
    | RlDecision.reject l r w => (MwResult.rejected l r w, st)
    | RlDecision.allow info => (MwResult.processed info, incrementCounters st ident)

/-! ### Brute-force guard (`BruteForceProtection`) -/

/-- The progressive lockout duration computed by `record_failed_attempt`:
`min(lockout_duration * 2 ** (attempts - max_failed_attempts), 3600)` with
`lockout_duration = 900` and `max_failed_attempts = 5`.  Python evaluates
`2 ** n` over the rationals when `n` is negative, hence the `zpow`. -/
def lockoutDurationQ (attempts : Nat) : ℚ :=
  min ((900 : ℚ) * (2 : ℚ) ^ ((attempts : ℤ) - 5)) 3600

/-- The stored failure count for (endpoint, identifier), 0 when absent. -/
def failCount (st : RlState) (ident endpoint : String) : Nat :=
  ((alookup st.failed (endpoint, ident)).map (fun p => p.1)).getD 0

/-- `BruteForceProtection.record_failed_attempt`: bump the failure counter,
store it with TTL equal to the computed duration, and once the counter has
reached 5 also store the lockout key (`now + duration`, same TTL).  Redis
errors are swallowed. -/
def recordFailedAttempt (st : RlState) (ident endpoint : String) : RlState :=
  if st.failing then st
  else
    let attempts := failCount st ident endpoint + 1
    let dur := lockoutDurationQ attempts
    let st1 := { st with failed := aupdate st.failed (endpoint, ident) (attempts, dur) }
    if attempts ≥ 5 then
      { st1 with lockouts :=
          (aupdate st1.lockouts (endpoint, ident) ((st.now : ℚ) + dur, dur)) }
    else st1

/-- `BruteForceProtection.is_locked_out`: report the remaining seconds while
`now < locked_until` (the stored value is truncated to an integer as Python's
`int()` does; all stored values are non-negative, so truncation is `floor`);
a stale lockout is lazily deleted together with the failure counter.  Redis
errors yield (not locked, 0). -/
def isLockedOut (st : RlState) (ident endpoint : String) : (Bool × Int) × RlState :=
  if st.failing then ((false, 0), st)
  else
    match alookup st.lockouts (endpoint, ident) with
    | none => ((false, 0), st)
    | some (untilQ, _) =>
        let untilI : Int := Rat.floor untilQ
        if (st.now : Int) < untilI then ((true, untilI - st.now), st)
        else ((false, 0),
              { st with lockouts := aerase st.lockouts (endpoint, ident),
                        failed := aerase st.failed (endpoint, ident) })

/-- `BruteForceProtection.clear_failed_attempts`: unconditionally delete both
keys; Redis errors are swallowed. -/
def clearFailedAttempts (st : RlState) (ident endpoint : String) : RlState :=
  if st.failing then st
  else { st with failed := aerase st.failed (endpoint, ident),
                 lockouts := aerase st.lockouts (endpoint, ident) }

/-! ### The verify-otp route (`app/api/v1/endpoints/auth.py`, lines 59-75)

The request passes through `RateLimitMiddleware.dispatch` and then the route
handler, which calls `AuthService.verify_otp` and converts a raised error
into an HTTP 400.  As in the source, nothing on this path consults
`BruteForceProtection`. -/

structure AppState where
  rl : RlState
  auth : AuthState
deriving DecidableEq, Repr

inductive EndpointResult : Type
  | tooManyRequests (limit reset : Nat) (window : RlWindow)
  | badRequest (e : VerifyErr)
  | okResp (r : AuthResponse)
deriving DecidableEq, Repr

def verifyOtpEndpoint (hashFn : String → String) (cpm cph : Nat) (a : AppState)
    (ident token code : String) (rand : Nat) : EndpointResult × AppState :=
  match dispatch cpm cph a.rl ident "/api/v1/auth/verify-otp" with
  | (MwResult.rejected l r w, rl1) =>
      (EndpointResult.tooManyRequests l r w, { a with rl := rl1 })
  | (_, rl1) =>
      match verifyOtp hashFn a.auth token code rand with
      | (Sum.inl e, auth1) =>
          (EndpointResult.badRequest e, { a with rl := rl1, auth := auth1 })
      | (Sum.inr resp, auth1) =>
          (EndpointResult.okResp resp, { a with rl := rl1, auth := auth1 })

/-! ### Branch characterizations of `verifyOtp` -/

theorem getOrCreateVendor_frame (st : AuthState) (ident : String) (rand : Nat) :
    (getOrCreateVendor st ident rand).2.tokenMap = st.tokenMap ∧
    (getOrCreateVendor st ident rand).2.otpRecords = st.otpRecords ∧
    (getOrCreateVendor st ident rand).2.vendorSessions = st.vendorSessions ∧
    (getOrCreateVendor st ident rand).2.nextSessionId = st.nextSessionId ∧
    (getOrCreateVendor st ident rand).2.now = st.now := by
  unfold getOrCreateVendor
  split <;> exact ⟨rfl, rfl, rfl, rfl, rfl⟩

theorem verifyOtp_tokenNone (hashFn : String → String) (st : AuthState)
    (token code : String) (rand : Nat)
    (h : redisGetToken st token = none) :
    verifyOtp hashFn st token code rand = (Sum.inl VerifyErr.tokenInvalid, st) := by
  simp only [verifyOtp, h]

theorem verifyOtp_expired (hashFn : String → String) (st : AuthState)
    (token code : String) (rand : Nat) (oid : Nat) (r0 : OtpRecord)
    (htok : redisGetToken st token = some oid)
    (hrec : alookup st.otpRecords oid = some r0)
    (h : st.now > r0.expiresAt) :
    verifyOtp hashFn st token code rand = (Sum.inl VerifyErr.expired, st) := by
  simp only [verifyOtp, htok, hrec]
  rw [if_pos h]

theorem verifyOtp_alreadyUsed (hashFn : String → String) (st : AuthState)
    (token code : String) (rand : Nat) (oid : Nat) (r0 : OtpRecord)
    (htok : redisGetToken st token = some oid)
    (hrec : alookup st.otpRecords oid = some r0)
    (hexp : st.now ≤ r0.expiresAt) (hver : r0.verified = true) :
    verifyOtp hashFn st token code rand = (Sum.inl VerifyErr.alreadyUsed, st) := by
  simp only [verifyOtp, htok, hrec]
  rw [if_neg (by omega), if_pos hver]

theorem verifyOtp_exhausted (hashFn : String → String) (st : AuthState)
    (token code : String) (rand : Nat) (oid : Nat) (r0 : OtpRecord)
    (htok : redisGetToken st token = some oid)
    (hrec : alookup st.otpRecords oid = some r0)
    (hexp : st.now ≤ r0.expiresAt) (hver : r0.verified = false)
    (hatt : 3 ≤ r0.attempts) :
    verifyOtp hashFn st token code rand = (Sum.inl VerifyErr.attemptsExhausted, st) := by
  simp only [verifyOtp, htok, hrec]
  rw [if_neg (by omega), if_neg (by simp [hver]), if_pos hatt]

theorem verifyOtp_wrongCode (hashFn : String → String) (st : AuthState)
    (token code : String) (rand : Nat) (oid : Nat) (r0 : OtpRecord)
    (htok : redisGetToken st token = some oid)
    (hrec : alookup st.otpRecords oid = some r0)
    (hexp : st.now ≤ r0.expiresAt) (hver : r0.verified = false)
    (hatt : r0.attempts < 3) (hhash : hashFn code ≠ r0.otpHash) :
    verifyOtp hashFn st token code rand =
      (Sum.inl (VerifyErr.invalidCode (3 - (r0.attempts + 1))),
       { st with otpRecords :=
           aupdate st.otpRecords oid { r0 with attempts := r0.attempts + 1 } }) := by
  simp only [verifyOtp, htok, hrec]
  rw [if_neg (by omega), if_neg (by simp [hver]), if_neg (by omega), if_pos hhash]

theorem verifyOtp_success (hashFn : String → String) (st : AuthState)
    (token code : String) (rand : Nat) (oid : Nat) (r0 : OtpRecord)
    (htok : redisGetToken st token = some oid)
    (hrec : alookup st.otpRecords oid = some r0)
    (hexp : st.now ≤ r0.expiresAt) (hver : r0.verified = false)
    (hatt : r0.attempts < 3) (hhash : hashFn code = r0.otpHash) :
    verifyOtp hashFn st token code rand =
      (let st1 : AuthState :=
        { st with otpRecords :=
            (aupdate st.otpRecords oid
              { r0 with verified := true, attempts := r0.attempts + 1 }) };
       let vres := getOrCreateVendor st1 r0.identifier rand;
       let access : Jwt :=
         { sub := vres.1.id, typ := Typ.access, iat := st.now,
           exp := st.now + 3600, sig := true };
       let refresh : Jwt :=
         { sub := vres.1.id, typ := Typ.refresh, iat := st.now,
           exp := st.now + 30 * 86400, sig := true };
       let st3 := createVendorSession vres.2 vres.1.id access refresh;
       (Sum.inr { accessToken := access, refreshToken := refresh, vendorId := vres.1.id },
        { st3 with tokenMap := aerase st3.tokenMap token })) := by
  simp only [verifyOtp, htok, hrec]
  rw [if_neg (by omega), if_neg (by simp [hver]), if_neg (by omega),
      if_neg (fun hne => hne hhash)]

theorem verifyOtp_success_tokenGone (hashFn : String → String) (st : AuthState)
    (token code : String) (rand : Nat) (oid : Nat) (r0 : OtpRecord)
    (htok : redisGetToken st token = some oid)
    (hrec : alookup st.otpRecords oid = some r0)
    (hexp : st.now ≤ r0.expiresAt) (hver : r0.verified = false)
    (hatt : r0.attempts < 3) (hhash : hashFn code = r0.otpHash) :
    redisGetToken (verifyOtp hashFn st token code rand).2 token = none := by
  rw [verifyOtp_success hashFn st token code rand oid r0 htok hrec hexp hver hatt hhash]
  simp [redisGetToken, alookup_aerase_self]

/-- C3: `verify_otp` applies its checks in exactly the order: token lookup
(`TokenInvalid` on an absent or naturally expired mapping), record expiry
(`Expired`), replay (`AlreadyUsed`), attempts cap (`AttemptsExhausted`,
cap 3), hash comparison (`InvalidCode` with `3 - (attempts+1)` remaining and
the attempts counter incremented by exactly one), and on a match marks the
record verified with attempts incremented, resolves or creates the vendor by
the record's identifier, creates a session, deletes the token mapping, and
returns the session tokens. -/
theorem verify_otp_check_order (hashFn : String → String) (st : AuthState)
    (token code : String) (rand : Nat) :
    (redisGetToken st token = none →
       verifyOtp hashFn st token code rand = (Sum.inl VerifyErr.tokenInvalid, st)) ∧
    (∀ oid r0, redisGetToken st token = some oid →
       alookup st.otpRecords oid = some r0 →
       (st.now > r0.expiresAt →
          verifyOtp hashFn st token code rand = (Sum.inl VerifyErr.expired, st)) ∧
       (st.now ≤ r0.expiresAt → r0.verified = true →
          verifyOtp hashFn st token code rand = (Sum.inl VerifyErr.alreadyUsed, st)) ∧
       (st.now ≤ r0.expiresAt → r0.verified = false → 3 ≤ r0.attempts →
          verifyOtp hashFn st token code rand =
            (Sum.inl VerifyErr.attemptsExhausted, st)) ∧
       (st.now ≤ r0.expiresAt → r0.verified = false → r0.attempts < 3 →
        hashFn code ≠ r0.otpHash →
          verifyOtp hashFn st token code rand =
            (Sum.inl (VerifyErr.invalidCode (3 - (r0.attempts + 1))),
             { st with otpRecords :=
                 aupdate st.otpRecords oid { r0 with attempts := r0.attempts + 1 } })) ∧
       (st.now ≤ r0.expiresAt → r0.verified = false → r0.attempts < 3 →
        hashFn code = r0.otpHash →
          let st1 : AuthState :=
            { st with otpRecords :=
                (aupdate st.otpRecords oid
                  { r0 with verified := true, attempts := r0.attempts + 1 }) };
          let v := (getOrCreateVendor st1 r0.identifier rand).1
          let access : Jwt :=
            { sub := v.id, typ := Typ.access, iat := st.now,
              exp := st.now + 3600, sig := true }
          let refresh : Jwt :=
            { sub := v.id, typ := Typ.refresh, iat := st.now,
              exp := st.now + 30 * 86400, sig := true }
          (verifyOtp hashFn st token code rand).1 =
            Sum.inr { accessToken := access, refreshToken := refresh, vendorId := v.id } ∧
          alookup (verifyOtp hashFn st token code rand).2.otpRecords oid =
            some { r0 with verified := true, attempts := r0.attempts + 1 } ∧
          redisGetToken (verifyOtp hashFn st token code rand).2 token = none ∧
          alookup (verifyOtp hashFn st token code rand).2.vendorSessions st.nextSessionId =
            some { vendorId := v.id, sessionToken := access, refreshToken := refresh,
                   expiresAt := st.now + 30 * 86400, lastUsed := none })) := by
  refine ⟨verifyOtp_tokenNone hashFn st token code rand, ?_⟩
  intro oid r0 htok hrec
  refine ⟨verifyOtp_expired hashFn st token code rand oid r0 htok hrec,
          verifyOtp_alreadyUsed hashFn st token code rand oid r0 htok hrec,
          verifyOtp_exhausted hashFn st token code rand oid r0 htok hrec,
          verifyOtp_wrongCode hashFn st token code rand oid r0 htok hrec, ?_⟩
  intro hexp hver hatt hhash
  have hmain := verifyOtp_success hashFn st token code rand oid r0 htok hrec hexp hver hatt hhash
  have hgone := verifyOtp_success_tokenGone hashFn st token code rand oid r0 htok hrec hexp hver hatt hhash
  refine ⟨?_, ?_, hgone, ?_⟩
  · rw [hmain]
  · rw [hmain]
    simp only [createVendorSession]
    have hframe := getOrCreateVendor_frame
      { st with otpRecords :=
          (aupdate st.otpRecords oid
            { r0 with verified := true, attempts := r0.attempts + 1 }) }
      r0.identifier rand
    simp only [hframe.2.1]
    exact alookup_aupdate_self _ _ _
  · rw [hmain]
    simp only [createVendorSession]
    have hframe := getOrCreateVendor_frame
      { st with otpRecords :=
          (aupdate st.otpRecords oid
            { r0 with verified := true, attempts := r0.attempts + 1 }) }
      r0.identifier rand
    simp only [hframe.2.2.1, hframe.2.2.2.1, hframe.2.2.2.2]
    exact alookup_aupdate_self _ _ _

/-! ### Concrete states for witnesses and counterexamples -/

def otpStEmpty : AuthState :=
  { tokenMap := [], otpRecords := [], vendors := [], nextVendorId := 1,
    vendorSessions := [], nextSessionId := 1, sessionCache := [], now := 0 }

def c3Rec : OtpRecord :=
  { identifier := "a@b.co", otpHash := "123456", attempts := 0,
    verified := true, expiresAt := 300 }

def c3StUsed : AuthState :=
  { tokenMap := [("t", (1, 300))], otpRecords := [(1, c3Rec)], vendors := [],
    nextVendorId := 1, vendorSessions := [], nextSessionId := 1,
    sessionCache := [], now := 0 }

/-- Witness for C3: on concrete states, an unmapped token fails with
`TokenInvalid`, and a mapped, unexpired, already-verified record fails with
`AlreadyUsed`. -/
theorem verify_otp_check_order_witness :
    verifyOtp id otpStEmpty "t" "123456" 0 = (Sum.inl VerifyErr.tokenInvalid, otpStEmpty) ∧
    verifyOtp id c3StUsed "t" "123456" 0 = (Sum.inl VerifyErr.alreadyUsed, c3StUsed) :=
  ⟨(verify_otp_check_order id otpStEmpty "t" "123456" 0).1 (by decide),
   ((verify_otp_check_order id c3StUsed "t" "123456" 0).2 1 c3Rec (by decide) (by decide)).2.1
     (by decide) (by decide)⟩

/-! ### C1: what the second verification against the same record reports -/

def c1Rec : OtpRecord :=
  { identifier := "a@b.co", otpHash := "123456", attempts := 0,
    verified := false, expiresAt := 300 }

def c1St : AuthState :=
  { tokenMap := [("t", (1, 300))], otpRecords := [(1, c1Rec)], vendors := [],
    nextVendorId := 1, vendorSessions := [], nextSessionId := 1,
    sessionCache := [], now := 0 }

/-- Counterexample to C1 as stated: from a fresh record, verifying with the
correct code succeeds, but the second `verify_otp` call with the same token
and the same correct code reports `TokenInvalid` (the token mapping was
deleted on success), not `AlreadyUsed`. -/
theorem second_verify_reports_token_invalid :
    (verifyOtp id c1St "t" "123456" 0).1 =
      Sum.inr { accessToken := { sub := 1, typ := Typ.access, iat := 0, exp := 3600, sig := true },
                refreshToken := { sub := 1, typ := Typ.refresh, iat := 0, exp := 2592000, sig := true },
                vendorId := 1 } ∧
    (verifyOtp id (verifyOtp id c1St "t" "123456" 0).2 "t" "123456" 0).1 =
      Sum.inl VerifyErr.tokenInvalid ∧
    (verifyOtp id (verifyOtp id c1St "t" "123456" 0).2 "t" "123456" 0).1 ≠
      Sum.inl VerifyErr.alreadyUsed := by
  refine ⟨by decide, by decide, by decide⟩

/-- C1 (amended): a successful verification deletes the token mapping, so
every second `verify_otp` call with the same token — in particular with the
same correct code — fails with `TokenInvalid`, leaving the state unchanged;
`AlreadyUsed` is reported exactly when a live token mapping leads to an
unexpired record whose `verified` flag is already true. -/
theorem verify_at_most_once (hashFn : String → String) (st : AuthState)
    (token code : String) (rand : Nat) (oid : Nat) (r0 : OtpRecord)
    (htok : redisGetToken st token = some oid)
    (hrec : alookup st.otpRecords oid = some r0)
    (hexp : st.now ≤ r0.expiresAt) (hver : r0.verified = false)
    (hatt : r0.attempts < 3) (hhash : hashFn code = r0.otpHash) :
    (∃ resp, (verifyOtp hashFn st token code rand).1 = Sum.inr resp) ∧
    (∀ code2 rand2,
       verifyOtp hashFn (verifyOtp hashFn st token code rand).2 token code2 rand2 =
         (Sum.inl VerifyErr.tokenInvalid, (verifyOtp hashFn st token code rand).2)) ∧
    (∀ st2 oid2 r2, redisGetToken st2 token = some oid2 →
       alookup st2.otpRecords oid2 = some r2 →
       st2.now ≤ r2.expiresAt → r2.verified = true →
       verifyOtp hashFn st2 token code rand = (Sum.inl VerifyErr.alreadyUsed, st2)) := by
  have hgone := verifyOtp_success_tokenGone hashFn st token code rand oid r0
    htok hrec hexp hver hatt hhash
  refine ⟨?_, ?_, ?_⟩
  · rw [verifyOtp_success hashFn st token code rand oid r0 htok hrec hexp hver hatt hhash]
    exact ⟨_, rfl⟩
  · intro code2 rand2
    exact verifyOtp_tokenNone hashFn _ token code2 rand2 hgone
  · intro st2 oid2 r2 htok2 hrec2 hexp2 hver2
    exact verifyOtp_alreadyUsed hashFn st2 token code rand oid2 r2 htok2 hrec2 hexp2 hver2

/-- Witness for the amended C1 at a concrete fresh record. -/
theorem verify_at_most_once_witness :
    (∃ resp, (verifyOtp id c1St "t" "123456" 0).1 = Sum.inr resp) ∧
    verifyOtp id (verifyOtp id c1St "t" "123456" 0).2 "t" "123456" 7 =
      (Sum.inl VerifyErr.tokenInvalid, (verifyOtp id c1St "t" "123456" 0).2) :=
  have h := verify_at_most_once id c1St "t" "123456" 0 1 c1Rec
    (by decide) (by decide) (by decide) (by decide) (by decide) (by decide)
  ⟨h.1, h.2.1 "123456" 7⟩

/-! ### C2: the attempts cap -/

def c2Rec : OtpRecord :=
  { identifier := "a@b.co", otpHash := "123456", attempts := 0,
    verified := false, expiresAt := 300 }

def c2St : AuthState :=
  { tokenMap := [("t", (1, 300))], otpRecords := [(1, c2Rec)], vendors := [],
    nextVendorId := 1, vendorSessions := [], nextSessionId := 1,
    sessionCache := [], now := 0 }

def c2S1 : AuthState := (verifyOtp id c2St "t" "000000" 0).2

def c2S2 : AuthState := (verifyOtp id c2S1 "t" "000000" 0).2

def c2S3 : AuthState := (verifyOtp id c2S2 "t" "000000" 0).2

/-- Counterexample to C2 as stated: on a fresh record, the third consecutive
wrong-code attempt reports `InvalidCode` with 0 attempts remaining — not
`AttemptsExhausted`; `AttemptsExhausted` first appears on the fourth call,
which fails even with the correct code. -/
theorem third_wrong_attempt_reports_invalid_code :
    (verifyOtp id c2St "t" "000000" 0).1 = Sum.inl (VerifyErr.invalidCode 2) ∧
    (verifyOtp id c2S1 "t" "000000" 0).1 = Sum.inl (VerifyErr.invalidCode 1) ∧
    (verifyOtp id c2S2 "t" "000000" 0).1 = Sum.inl (VerifyErr.invalidCode 0) ∧
    (verifyOtp id c2S2 "t" "000000" 0).1 ≠ Sum.inl VerifyErr.attemptsExhausted ∧
    (verifyOtp id c2S3 "t" "123456" 0).1 = Sum.inl VerifyErr.attemptsExhausted := by
  refine ⟨by decide, by decide, by decide, by decide, by decide⟩

/-- C2 (amended): once the attempts counter has reached 3 every further
`verify_otp` call on the (unexpired, unverified) record fails with
`AttemptsExhausted` even with the correct code; in the scenario of three
consecutive wrong-code attempts on a fresh record the three failures report
`InvalidCode` with 2, 1 and 0 attempts remaining, and a fourth attempt with
any code — in particular the correct one — fails with `AttemptsExhausted`. -/
theorem attempts_cap (hashFn : String → String) (st : AuthState)
    (token : String) (rand : Nat) (oid : Nat) (r0 : OtpRecord)
    (htok : redisGetToken st token = some oid)
    (hrec : alookup st.otpRecords oid = some r0)
    (hexp : st.now ≤ r0.expiresAt) (hver : r0.verified = false) :
    (3 ≤ r0.attempts → ∀ code,
       verifyOtp hashFn st token code rand =
         (Sum.inl VerifyErr.attemptsExhausted, st)) ∧
    (r0.attempts = 0 → ∀ code, hashFn code ≠ r0.otpHash →
       (verifyOtp hashFn st token code rand).1 = Sum.inl (VerifyErr.invalidCode 2) ∧
       (verifyOtp hashFn (verifyOtp hashFn st token code rand).2
          token code rand).1 = Sum.inl (VerifyErr.invalidCode 1) ∧
       (verifyOtp hashFn (verifyOtp hashFn (verifyOtp hashFn st token code rand).2
          token code rand).2 token code rand).1 = Sum.inl (VerifyErr.invalidCode 0) ∧
       ∀ code4,
         (verifyOtp hashFn (verifyOtp hashFn (verifyOtp hashFn
            (verifyOtp hashFn st token code rand).2 token code rand).2
            token code rand).2 token code4 rand).1 =
           Sum.inl VerifyErr.attemptsExhausted) := by
  constructor
  · intro h3 code
    exact verifyOtp_exhausted hashFn st token code rand oid r0 htok hrec hexp hver h3
  · intro h0 code hw
    have h1 := verifyOtp_wrongCode hashFn st token code rand oid r0 htok hrec hexp hver
      (by omega) hw
    have h2 := verifyOtp_wrongCode hashFn
      { st with otpRecords := aupdate st.otpRecords oid { r0 with attempts := r0.attempts + 1 } }
      token code rand oid { r0 with attempts := r0.attempts + 1 }
      htok (alookup_aupdate_self _ _ _) hexp hver
      (by show r0.attempts + 1 < 3; omega) hw
    have h3 := verifyOtp_wrongCode hashFn
      { st with otpRecords :=
          (aupdate (aupdate st.otpRecords oid { r0 with attempts := r0.attempts + 1 }) oid
            { r0 with attempts := r0.attempts + 1 + 1 }) }
      token code rand oid { r0 with attempts := r0.attempts + 1 + 1 }
      htok (alookup_aupdate_self _ _ _) hexp hver
      (by show r0.attempts + 1 + 1 < 3; omega) hw
    have h4 : ∀ code4,
        (verifyOtp hashFn
          { st with otpRecords :=
              (aupdate (aupdate (aupdate st.otpRecords oid
                  { r0 with attempts := r0.attempts + 1 }) oid
                  { r0 with attempts := r0.attempts + 1 + 1 }) oid
                  { r0 with attempts := r0.attempts + 1 + 1 + 1 }) }
          token code4 rand).1 = Sum.inl VerifyErr.attemptsExhausted := by
      intro code4
      rw [verifyOtp_exhausted hashFn
        { st with otpRecords :=
            (aupdate (aupdate (aupdate st.otpRecords oid
                { r0 with attempts := r0.attempts + 1 }) oid
                { r0 with attempts := r0.attempts + 1 + 1 }) oid
                { r0 with attempts := r0.attempts + 1 + 1 + 1 }) }
        token code4 rand oid
        { r0 with attempts := r0.attempts + 1 + 1 + 1 }
        htok (alookup_aupdate_self _ _ _) hexp hver
        (by show 3 ≤ r0.attempts + 1 + 1 + 1; omega)]
    rw [h1]
    refine ⟨by simp [h0], ?_, ?_, ?_⟩
    · rw [h2]
      simp [h0]
    · rw [h2, h3]
      simp [h0]
    · intro code4
      rw [h2, h3]
      exact h4 code4

/-- Witness for the amended C2 at a concrete fresh record: the first two
wrong attempts report 2 and then 1 remaining. -/
theorem attempts_cap_witness :
    (verifyOtp id c2St "t" "000000" 0).1 = Sum.inl (VerifyErr.invalidCode 2) ∧
    (verifyOtp id (verifyOtp id c2St "t" "000000" 0).2 "t" "000000" 0).1 =
      Sum.inl (VerifyErr.invalidCode 1) :=
  have h := (attempts_cap id c2St "t" 0 1 c2Rec
    (by decide) (by decide) (by decide) (by decide)).2 (by decide) "000000" (by decide)
  ⟨h.1, h.2.1⟩

/-! ### C10: the synthetic vendor created for an email identifier -/

/-- C10: when the identifier is not a valid phone number and no vendor row
matches it by email, `_get_or_create_vendor` creates a vendor with empty
name and market location, preferred language "hi", status "active", the
email set to the identifier, and a placeholder phone number of the form
`+91` followed by a number between 1000000000 and 9999999999 (that is, ten
digits), never supplied by the user. -/
theorem new_email_vendor_fields (st : AuthState) (ident : String) (rand : Nat)
    (hphone : isValidPhone ident = false)
    (hnone : findVendorByEmail st.vendors ident = none)
    (hrand : rand < 9000000000) :
    (getOrCreateVendor st ident rand).1.name = "" ∧
    (getOrCreateVendor st ident rand).1.marketLocation = "" ∧
    (getOrCreateVendor st ident rand).1.preferredLanguage = "hi" ∧
    (getOrCreateVendor st ident rand).1.status = "active" ∧
    (getOrCreateVendor st ident rand).1.email = some ident ∧
    (getOrCreateVendor st ident rand).1.phoneNumber =
      "+91" ++ Nat.repr (rand + 1000000000) ∧
    1000000000 ≤ rand + 1000000000 ∧ rand + 1000000000 ≤ 9999999999 := by
  simp only [getOrCreateVendor, hphone, hnone, Bool.false_eq_true, if_false]
  refine ⟨trivial, trivial, trivial, trivial, trivial, trivial, by omega, by omega⟩

/-- Witness for C10 at the identifier `a@b.co` and random draw 5. -/
theorem new_email_vendor_fields_witness :
    isValidPhone "a@b.co" = false ∧
    (getOrCreateVendor otpStEmpty "a@b.co" 5).1.preferredLanguage = "hi" ∧
    (getOrCreateVendor otpStEmpty "a@b.co" 5).1.phoneNumber =
      "+91" ++ Nat.repr (5 + 1000000000) :=
  have h := new_email_vendor_fields otpStEmpty "a@b.co" 5
    (by decide) (by decide) (by decide)
  ⟨by decide, h.2.2.1, h.2.2.2.2.2.1⟩

/-! ### C5: the middleware admission decision -/

def c5SkipSt : RlState :=
  { minuteCounts := [(("c", 0), 60)], hourCounts := [], failed := [],
    lockouts := [], now := 0, failing := false }

/-- Counterexample to C5 as stated: a request to `/health` reaches the
middleware (`dispatch`) with the minute-window count already at the default
limit (60 ≥ 60 should reject, and an admission should increment), yet the
request is passed through untouched: it is not rejected and neither window
counter is incremented. -/
theorem health_request_bypasses_rate_limit :
    dispatch 60 1000 c5SkipSt "c" "/health" = (MwResult.passthrough, c5SkipSt) ∧
    60 ≤ getCount c5SkipSt.minuteCounts ("c", 0) := by
  refine ⟨by decide, by decide⟩

/-- C5 (amended): for every request whose path is not on the middleware's
skip list (`/`, `/health`, `/docs`, `/redoc`, `/openapi.json`), with the
cache reachable, the decision rejects iff a pre-increment window count has
reached its per-endpoint limit (minute window checked first, ties
rejecting); a rejection leaves the state untouched, and an admission
increments both window counters exactly once each. -/
theorem rate_limit_decision (cpm cph : Nat) (st : RlState) (ident path : String)
    (hfail : st.failing = false) (hskip : path ∉ skipPaths) :
    ((limitsFor cpm cph path).1 ≤ getCount st.minuteCounts (ident, st.now / 60) →
       dispatch cpm cph st ident path =
         (MwResult.rejected (limitsFor cpm cph path).1 ((st.now / 60 + 1) * 60)
            RlWindow.minute, st)) ∧
    (getCount st.minuteCounts (ident, st.now / 60) < (limitsFor cpm cph path).1 →
     (limitsFor cpm cph path).2 ≤ getCount st.hourCounts (ident, st.now / 3600) →
       dispatch cpm cph st ident path =
         (MwResult.rejected (limitsFor cpm cph path).2 ((st.now / 3600 + 1) * 3600)
            RlWindow.hour, st)) ∧
    (getCount st.minuteCounts (ident, st.now / 60) < (limitsFor cpm cph path).1 →
     getCount st.hourCounts (ident, st.now / 3600) < (limitsFor cpm cph path).2 →
       (dispatch cpm cph st ident path).1 =
         MwResult.processed (some ((limitsFor cpm cph path).1,
           (limitsFor cpm cph path).1 - getCount st.minuteCounts (ident, st.now / 60) - 1,
           (limitsFor cpm cph path).2,
           (limitsFor cpm cph path).2 - getCount st.hourCounts (ident, st.now / 3600) - 1)) ∧
       getCount (dispatch cpm cph st ident path).2.minuteCounts (ident, st.now / 60) =
         getCount st.minuteCounts (ident, st.now / 60) + 1 ∧
       getCount (dispatch cpm cph st ident path).2.hourCounts (ident, st.now / 3600) =
         getCount st.hourCounts (ident, st.now / 3600) + 1) := by
  refine ⟨?_, ?_, ?_⟩
  · intro h
    simp only [dispatch, checkRateLimit, hfail, Bool.false_eq_true, if_false,
      if_neg hskip, if_pos h]
  · intro h1 h2
    simp only [dispatch, checkRateLimit, hfail, Bool.false_eq_true, if_false,
      if_neg hskip, if_neg (Nat.not_le.mpr h1), if_pos h2]
  · intro h1 h2
    simp only [dispatch, checkRateLimit, incrementCounters, hfail,
      Bool.false_eq_true, if_false, if_neg hskip,
      if_neg (Nat.not_le.mpr h1), if_neg (Nat.not_le.mpr h2)]
    refine ⟨trivial, ?_, ?_⟩
    · simp [getCount, alookup_aupdate_self]
    · simp [getCount, alookup_aupdate_self]

def c5RejSt : RlState :=
  { minuteCounts := [(("c", 0), 5)], hourCounts := [], failed := [],
    lockouts := [], now := 0, failing := false }

def c5AdmSt : RlState :=
  { minuteCounts := [], hourCounts := [], failed := [],
    lockouts := [], now := 0, failing := false }

/-- Witness for the amended C5: with the login endpoint's minute limit (5)
already reached a login request is rejected on the minute window without a
state change, while a fresh client is allowed with the login limits in the
headers. -/
theorem rate_limit_decision_witness :
    dispatch 60 1000 c5RejSt "c" "/api/v1/auth/login" =
      (MwResult.rejected 5 60 RlWindow.minute, c5RejSt) ∧
    (dispatch 60 1000 c5AdmSt "c" "/api/v1/auth/login").1 =
      MwResult.processed (some (5, 4, 20, 19)) :=
  ⟨(rate_limit_decision 60 1000 c5RejSt "c" "/api/v1/auth/login"
      rfl (by decide)).1 (by decide),
   ((rate_limit_decision 60 1000 c5AdmSt "c" "/api/v1/auth/login"
      rfl (by decide)).2.2 (by decide) (by decide)).1⟩

/-! ### C8: progressive lockout arithmetic -/

theorem lockoutDurationQ_natCast (a : Nat) (h : 5 ≤ a) :
    lockoutDurationQ a = ((min (900 * 2 ^ (a - 5)) 3600 : ℕ) : ℚ) := by
  unfold lockoutDurationQ
  have h5 : (a : ℤ) - 5 = ((a - 5 : ℕ) : ℤ) := by omega
  rw [h5, zpow_natCast]
  push_cast
  rfl

theorem lockoutDurationQ_strict_mono (g : Nat) (h5 : 5 ≤ g)
    (hcap : lockoutDurationQ g < 3600) :
    lockoutDurationQ g < lockoutDurationQ (g + 1) := by
  have e1 := lockoutDurationQ_natCast g h5
  have e2 := lockoutDurationQ_natCast (g + 1) (by omega)
  rw [e1] at hcap
  rw [e1, e2, Nat.cast_lt]
  have hcap' : min (900 * 2 ^ (g - 5)) 3600 < 3600 := by exact_mod_cast hcap
  have hg1 : g + 1 - 5 = (g - 5) + 1 := by omega
  rw [hg1, pow_succ]
  have hx : 1 ≤ 2 ^ (g - 5) := Nat.one_le_two_pow
  omega

/-- C8: once the failure count `f` reaches the threshold 5,
`record_failed_attempt` stores the failure counter with value `f` and TTL
equal to the lockout duration, stores a lockout expiring at `now + duration`
with the same TTL, the duration equals `min(900 * 2^(f-5), 3600)` seconds,
and the duration strictly increases with each further failure until the
3600 s cap is reached. -/
theorem progressive_lockout (st : RlState) (ident endpoint : String)
    (hfail : st.failing = false)
    (hthresh : 5 ≤ failCount st ident endpoint + 1) :
    alookup (recordFailedAttempt st ident endpoint).failed (endpoint, ident) =
      some (failCount st ident endpoint + 1,
            lockoutDurationQ (failCount st ident endpoint + 1)) ∧
    alookup (recordFailedAttempt st ident endpoint).lockouts (endpoint, ident) =
      some ((st.now : ℚ) + lockoutDurationQ (failCount st ident endpoint + 1),
            lockoutDurationQ (failCount st ident endpoint + 1)) ∧
    lockoutDurationQ (failCount st ident endpoint + 1) =
      ((min (900 * 2 ^ (failCount st ident endpoint + 1 - 5)) 3600 : ℕ) : ℚ) ∧
    (∀ g, 5 ≤ g → lockoutDurationQ g < 3600 →
       lockoutDurationQ g < lockoutDurationQ (g + 1)) := by
  refine ⟨?_, ?_, lockoutDurationQ_natCast _ hthresh, lockoutDurationQ_strict_mono⟩
  · simp only [recordFailedAttempt, hfail, Bool.false_eq_true, if_false, if_pos hthresh]
    exact alookup_aupdate_self _ _ _
  · simp only [recordFailedAttempt, hfail, Bool.false_eq_true, if_false, if_pos hthresh]
    exact alookup_aupdate_self _ _ _

def c8St : RlState :=
  { minuteCounts := [], hourCounts := [],
    failed := [(("/api/v1/auth/login", "u"), (4, (3600 : ℚ)))],
    lockouts := [], now := 1000, failing := false }

/-- Witness for C8: the fifth failure locks the account out for
`lockoutDurationQ 5` (= 900) seconds starting at `now`. -/
theorem progressive_lockout_witness :
    5 ≤ failCount c8St "u" "/api/v1/auth/login" + 1 ∧
    alookup (recordFailedAttempt c8St "u" "/api/v1/auth/login").lockouts
        ("/api/v1/auth/login", "u") =
      some (((1000 : ℕ) : ℚ) + lockoutDurationQ 5, lockoutDurationQ 5) :=
  have h := progressive_lockout c8St "u" "/api/v1/auth/login" rfl (by decide)
  ⟨by decide, h.2.1⟩

/-! ### C9: fail-open on cache outage -/

/-- C9: when the shared cache raises, the protection layer fails open: the
rate-limit check allows the request, `is_locked_out` reports (not locked, 0 s), and
`record_failed_attempt` / `clear_failed_attempts` swallow the error and
leave the state unchanged; none of them propagates the storage error (they
are total functions into plain results in this embedding, mirroring the
catch-all handlers in the source). -/
theorem cache_outage_fails_open (cpm cph : Nat) (st : RlState)
    (ident path endpoint : String) (h : st.failing = true) :
    checkRateLimit cpm cph st ident path = RlDecision.allow none ∧
    isLockedOut st ident endpoint = ((false, 0), st) ∧
    recordFailedAttempt st ident endpoint = st ∧
    clearFailedAttempts st ident endpoint = st := by
  refine ⟨?_, ?_, ?_, ?_⟩ <;>
    simp [checkRateLimit, isLockedOut, recordFailedAttempt, clearFailedAttempts, h]

def c9St : RlState :=
  { minuteCounts := [(("c", 0), 1000)], hourCounts := [],
    failed := [], lockouts := [(("/api/v1/auth/login", "c"), ((5000 : ℚ), (900 : ℚ)))],
    now := 0, failing := true }

/-- Witness for C9: with the cache down, even a client over every limit and
holding an active lockout entry is allowed and reported not locked. -/
theorem cache_outage_fails_open_witness :
    checkRateLimit 60 1000 c9St "c" "/api/v1/auth/login" = RlDecision.allow none ∧
    isLockedOut c9St "c" "/api/v1/auth/login" = ((false, 0), c9St) :=
  have h := cache_outage_fails_open 60 1000 c9St "c" "/api/v1/auth/login"
    "/api/v1/auth/login" rfl
  ⟨h.1, h.2.1⟩

/-! ### C6: default-deny in `validate_session` -/

/-- Invariant of the running system: the session cache is only ever written
by `_create_vendor_session` and `refresh_token`, both under an access token
the service itself just signed, so every cached key is a validly signed
access token. -/
def sessionCacheOk (st : AuthState) : Prop :=
  ∀ p ∈ st.sessionCache, p.1.sig = true ∧ p.1.typ = Typ.access

theorem cacheGetSess_alookup (st : AuthState) (tok : Jwt) (cs : SessCacheEntry)
    (h : cacheGetSess st tok = some cs) : alookup st.sessionCache tok = some cs := by
  unfold cacheGetSess at h
  cases ha : alookup st.sessionCache tok with
  | none =>
      simp only [ha] at h
      exact h
  | some cs' =>
      simp only [ha] at h
      by_cases hts : st.now < cs'.ttlExpiresAt
      · rw [if_pos hts] at h
        exact h
      · rw [if_neg hts] at h
        exact absurd h (by simp)

theorem validateSessionTail_badSig (df : Bool) (st : AuthState) (tok : Jwt)
    (h : tok.sig = false) : validateSessionTail df st tok = (none, st) := by
  unfold validateSessionTail
  rw [if_pos (by simp [jwtDecodeOk, h])]

theorem validateSessionTail_badTyp (df : Bool) (st : AuthState) (tok : Jwt)
    (h : tok.typ ≠ Typ.access) : (validateSessionTail df st tok).1 = none := by
  unfold validateSessionTail
  by_cases hdec : jwtDecodeOk tok st.now = false
  · rw [if_pos hdec]
  · rw [if_neg hdec, if_pos h]

theorem validateSessionTail_dbDown (st : AuthState) (tok : Jwt) :
    (validateSessionTail true st tok).1 = none := by
  unfold validateSessionTail
  by_cases hdec : jwtDecodeOk tok st.now = false
  · rw [if_pos hdec]
  · rw [if_neg hdec]
    by_cases hty : tok.typ ≠ Typ.access
    · rw [if_pos hty]
    · rw [if_neg hty]
      rfl

/-- C6: `validate_session` is default-deny — under the invariant that cache
entries exist only for validly signed access tokens, a token whose
signature does not verify yields `none`, a token whose `typ` claim is not
`access` yields `none`, a cache outage yields `none`, and a datastore
outage on any path that reaches the datastore yields `none`; in every case
the function returns instead of raising (it is total into `Option` because
the source catches both `JWTError` and the generic `Exception`). -/
theorem validate_session_default_deny (df : Bool) (st : AuthState) (tok : Jwt)
    (hinv : sessionCacheOk st) :
    (∀ df2, validateSession true df2 st tok = (none, st)) ∧
    (tok.sig = false → (validateSession false df st tok).1 = none) ∧
    (tok.typ ≠ Typ.access → (validateSession false df st tok).1 = none) ∧
    ((∀ cs, cacheGetSess st tok = some cs → st.now > cs.expiresAt) →
       (validateSession false true st tok).1 = none) := by
  refine ⟨?_, ?_, ?_, ?_⟩
  · intro df2
    simp [validateSession]
  · intro hsig
    cases hc : cacheGetSess st tok with
    | some cs =>
        have hmem := alookup_mem _ _ _ (cacheGetSess_alookup st tok cs hc)
        have hs := (hinv _ hmem).1
        rw [hsig] at hs
        exact absurd hs (by simp)
    | none =>
        simp only [validateSession, Bool.false_eq_true, if_false, hc]
        rw [validateSessionTail_badSig df st tok hsig]
  · intro hty
    cases hc : cacheGetSess st tok with
    | some cs =>
        have hmem := alookup_mem _ _ _ (cacheGetSess_alookup st tok cs hc)
        exact absurd (hinv _ hmem).2 hty
    | none =>
        simp only [validateSession, Bool.false_eq_true, if_false, hc]
        exact validateSessionTail_badTyp df st tok hty
  · intro hall
    cases hc : cacheGetSess st tok with
    | some cs =>
        simp only [validateSession, Bool.false_eq_true, if_false, hc]
        rw [if_neg (by have := hall cs hc; omega)]
        exact validateSessionTail_dbDown st tok
    | none =>
        simp only [validateSession, Bool.false_eq_true, if_false, hc]
        exact validateSessionTail_dbDown st tok

def c6Tok : Jwt := { sub := 1, typ := Typ.access, iat := 0, exp := 3600, sig := false }

/-- Witness for C6: an unsigned token is rejected with `none`. -/
theorem validate_session_default_deny_witness :
    sessionCacheOk otpStEmpty ∧
    (validateSession false false otpStEmpty c6Tok).1 = none :=
  have hinv : sessionCacheOk otpStEmpty := by
    intro p hp
    simp [otpStEmpty] at hp
  ⟨hinv, (validate_session_default_deny false otpStEmpty c6Tok hinv).2.1 rfl⟩

/-! ### C7: what happens to an access token older than its TTL -/

def c7Tok : Jwt := { sub := 1, typ := Typ.access, iat := 0, exp := 3600, sig := true }

def c7Refresh : Jwt := { sub := 1, typ := Typ.refresh, iat := 0, exp := 2592000, sig := true }

def c7StA : AuthState :=
  { tokenMap := [], otpRecords := [], vendors := [], nextVendorId := 1,
    vendorSessions := [], nextSessionId := 1,
    sessionCache := [(c7Tok, { vendorId := 1, expiresAt := 2592000, ttlExpiresAt := 86400 })],
    now := 7200 }

def c7StB : AuthState :=
  { tokenMap := [], otpRecords := [], vendors := [], nextVendorId := 1,
    vendorSessions := [(1, { vendorId := 1, sessionToken := c7Tok, refreshToken := c7Refresh,
                             expiresAt := 2592000, lastUsed := none })],
    nextSessionId := 2, sessionCache := [], now := 7200 }

/-- Counterexample to C7 as stated: for an access token issued at 0 and
validated at 7200 s (two hours, past its one-hour TTL): (a) while its
24-hour cache entry is still present, `validate_session` returns the cached
session — authenticated, not unauthenticated; (b) with the cache entry
gone, it returns unauthenticated but deletes nothing — the session row
survives. -/
theorem expired_token_counterexample :
    c7Tok.iat + 3600 < c7StA.now ∧
    (validateSession false false c7StA c7Tok).1 =
      some { vendorId := 1, expiresAt := 2592000 } ∧
    validateSession false false c7StB c7Tok = (none, c7StB) ∧
    c7StB.vendorSessions ≠ [] := by
  refine ⟨by decide, by decide, by decide, by decide⟩

/-- C7 (amended): on an access token whose signature expiry has elapsed,
`validate_session` returns unauthenticated provided no live cache entry for
the token exists, and on that path it performs no cleanup: the state —
session rows and cache alike — is returned unchanged.  (A live cache entry
instead causes the expired token to validate; the eager double deletion
only runs when the token still decodes but the stored row is past its own
`expires_at`.) -/
theorem expired_token_unauthenticated_no_cleanup (cf df : Bool) (st : AuthState)
    (tok : Jwt) (hmiss : cacheGetSess st tok = none) (hexp : st.now > tok.exp) :
    validateSession cf df st tok = (none, st) := by
  cases cf with
  | true => simp [validateSession]
  | false =>
      simp only [validateSession, Bool.false_eq_true, if_false, hmiss]
      unfold validateSessionTail
      rw [if_pos (by simp [jwtDecodeOk, hexp])]

/-- Witness for the amended C7: with the cache entry absent, the expired
token is rejected and the state is untouched even under a cache outage. -/
theorem expired_token_unauthenticated_no_cleanup_witness :
    cacheGetSess c7StB c7Tok = none ∧
    validateSession true false c7StB c7Tok = (none, c7StB) :=
  ⟨by decide,
   expired_token_unauthenticated_no_cleanup true false c7StB c7Tok (by decide) (by decide)⟩

/-! ### C4: the brute-force guard is never consulted by the auth routes -/

theorem verify_otp_route_no_bf_access (hashFn : String → String) (cpm cph : Nat)
    (a : AppState) (ident token code : String) (rand : Nat) :
    (verifyOtpEndpoint hashFn cpm cph a ident token code rand).2.rl.lockouts =
      a.rl.lockouts ∧
    (verifyOtpEndpoint hashFn cpm cph a ident token code rand).2.rl.failed =
      a.rl.failed := by
  have hdl : (dispatch cpm cph a.rl ident "/api/v1/auth/verify-otp").2.lockouts =
      a.rl.lockouts ∧
      (dispatch cpm cph a.rl ident "/api/v1/auth/verify-otp").2.failed = a.rl.failed := by
    unfold dispatch
    split
    · exact ⟨rfl, rfl⟩
    · split
      · exact ⟨rfl, rfl⟩
      · unfold incrementCounters
        split
        · exact ⟨rfl, rfl⟩
        · exact ⟨rfl, rfl⟩
  rcases hd : dispatch cpm cph a.rl ident "/api/v1/auth/verify-otp" with ⟨res, rl1⟩
  have hl : rl1.lockouts = a.rl.lockouts ∧ rl1.failed = a.rl.failed := by
    have h := hdl
    rw [hd] at h
    exact h
  unfold verifyOtpEndpoint
  rw [hd]
  cases res with
  | rejected l r w => exact ⟨hl.1, hl.2⟩
  | passthrough =>
      rcases hv : verifyOtp hashFn a.auth token code rand with ⟨vres, auth1⟩
      cases vres <;> simp [hv, hl.1, hl.2]
  | processed info =>
      rcases hv : verifyOtp hashFn a.auth token code rand with ⟨vres, auth1⟩
      cases vres <;> simp [hv, hl.1, hl.2]

def c4Rl : RlState :=
  { minuteCounts := [], hourCounts := [],
    failed := [(("/api/v1/auth/verify-otp", "client"), (5, (3600 : ℚ)))],
    lockouts := [(("/api/v1/auth/verify-otp", "client"), ((10000 : ℚ), (3600 : ℚ)))],
    now := 100, failing := false }

def c4Auth : AuthState :=
  { tokenMap := [("t", (1, 400))],
    otpRecords := [(1, { identifier := "a@b.co", otpHash := "123456", attempts := 0,
                         verified := false, expiresAt := 400 })],
    vendors := [], nextVendorId := 1, vendorSessions := [], nextSessionId := 1,
    sessionCache := [], now := 100 }

/-- C4 fails on the code: the route pipeline for `/api/v1/auth/verify-otp`
(middleware dispatch followed by the handler) never consults
`BruteForceProtection`.  Concretely, a client that `is_locked_out` reports
as locked for another 9900 s still gets its request processed to success,
and the pipeline neither reads, records, nor clears any brute-force state
for any request. -/
theorem verify_otp_route_ignores_lockout :
    (isLockedOut c4Rl "client" "/api/v1/auth/verify-otp").1 = (true, 9900) ∧
    (verifyOtpEndpoint id 60 1000 { rl := c4Rl, auth := c4Auth }
        "client" "t" "123456" 0).1 =
      EndpointResult.okResp
        { accessToken := { sub := 1, typ := Typ.access, iat := 100, exp := 3700, sig := true },
          refreshToken := { sub := 1, typ := Typ.refresh, iat := 100, exp := 2592100, sig := true },
          vendorId := 1 } ∧
    (verifyOtpEndpoint id 60 1000 { rl := c4Rl, auth := c4Auth }
        "client" "t" "123456" 0).2.rl.lockouts = c4Rl.lockouts ∧
    (verifyOtpEndpoint id 60 1000 { rl := c4Rl, auth := c4Auth }
        "client" "t" "123456" 0).2.rl.failed = c4Rl.failed ∧
    (∀ (hashFn : String → String) (cpm cph : Nat) (a : AppState)
       (ident token code : String) (rand : Nat),
        (verifyOtpEndpoint hashFn cpm cph a ident token code rand).2.rl.lockouts =
          a.rl.lockouts ∧
        (verifyOtpEndpoint hashFn cpm cph a ident token code rand).2.rl.failed =
          a.rl.failed) := by
  refine ⟨by decide, by decide, by decide, by decide, verify_otp_route_no_bf_access⟩

end VyaparAI
